import Mathlib

/-!
Shallow embedding of the VeriAI verification protocol.

Sources embedded here:
* `VerificationLibrary` (pure policy functions): fee/input validation,
  rate and daily limits, request-id and output-hash derivation, expiry.
* `SolanaOracleRelayer`: attestation request/fulfillment tracking,
  price-derived fee conversion, attestation validity queries.
* `VeriAISolana` (the verification registry): the `requestVerification`
  entry points (caller-pays and backend-pays), `_calculateDynamicFee`,
  `fulfillVerification`, `markVerificationFailed`, `verifyOutput`.
* `VeriAINFTSolana` (certificate issuer): `mintVerificationNFT`,
  `isVerificationValid`.
* `MultichainContractService` (router): `getNFT` chain selection and
  `detectChainFromTokenId`.

Modelling conventions:
* `uint256`/`uint64` quantities (lamports, timestamps, counters) are `Nat`;
  Pyth's `int64` price is `Int`.  Solidity 0.8 checked subtraction that can
  underflow is modelled by an explicit guard that raises an error.
* `keccak256` over distinguishable `abi.encodePacked` input domains is
  idealized as the collision-free inductive `B32`; `bytes32(0)` is
  `B32.zero`.  Each constructor corresponds to one packing shape appearing
  in the source.
* Reverting entry points return `Except VErr _`; on `.error` no state is
  produced, matching transaction revert (all writes rolled back).
* Solidity mappings with a sentinel-default existence check
  (`requester != address(0)`, `timestamp != 0`, `_owners[id] != address(0)`)
  are association lists probed with `lookup`; the sentinel checks are kept
  where the source performs them.  Addresses are `String`s with `""` playing
  `address(0)`.
* The `msgSender()` shim in the source always returns the stored admin, so
  `onlyRole(R)` evaluates `hasRole(R, admin)`; each restricted entry point
  here takes a `Bool` for that evaluated check.  External-world outcomes
  (price feed answer, treasury transfer success) are explicit inputs.
-/

/-- Verification status enum from `contract-types.ts` / `IVeriAISolana`. -/
inductive VStatus
  | Pending
  | Verified
  | Failed
  | Expired
deriving DecidableEq, Repr

/-- `abi.encode(prompt, model, requester, timestamp)` payload forwarded to the
oracle relayer. -/
structure VerifData where
  prompt : String
  model : String
  requester : String
  timestamp : Nat
deriving DecidableEq, Repr

/-- Idealized collision-free `keccak256`/`bytes32` values.  Each constructor
is one `abi.encodePacked` shape used in the source; `zero` is `bytes32(0)`. -/
inductive B32
  | zero
  | outHash (output : String)
  | reqId (requester prompt model : String) (timestamp nonce : Nat)
  | attId (requestId : B32) (sender : String) (data : VerifData)
      (timestamp blockNumber : Nat)
  | proofHash (proof : List Nat)
deriving DecidableEq, Repr

/-- Typed failure reasons for every revert path modelled here. -/
inductive VErr
  | ContractPaused
  | InvalidPrompt
  | InvalidModel
  | InsufficientFee
  | RateLimitExceeded
  | DailyLimitExceeded
  | TimestampBeforeDeployment
  | RequestNotFound
  | AlreadyFulfilled
  | AlreadyProcessed
  | InvalidAttestation
  | AttestationMismatch
  | RequestExpired
  | Unauthorized
  | InvalidRequester
  | FeeTransferFailed
  | InvalidPriceData
  | DuplicateRequest
  | EmptyProof
  | InvalidMetadata
  | InvalidRecipient
  | TokenAlreadyExists
  | ArithmeticUnderflow
  | FeeOutOfRange
deriving DecidableEq, Repr

namespace VerificationLibrary

/-- `MIN_VERIFICATION_FEE = 0.001 ether`. -/
def MIN_VERIFICATION_FEE : Nat := 10 ^ 15

/-- `MAX_VERIFICATION_FEE = 1 ether`. -/
def MAX_VERIFICATION_FEE : Nat := 10 ^ 18

/-- `MAX_PROMPT_LENGTH = 2000`. -/
def MAX_PROMPT_LENGTH : Nat := 2000

/-- `MAX_MODEL_LENGTH = 50`. -/
def MAX_MODEL_LENGTH : Nat := 50

/-- `RATE_LIMIT_WINDOW = 60 seconds`. -/
def RATE_LIMIT_WINDOW : Nat := 60

/-- `MAX_DAILY_REQUESTS = 100`. -/
def MAX_DAILY_REQUESTS : Nat := 100

/-- `REQUEST_TIMEOUT = 24 hours`. -/
def REQUEST_TIMEOUT : Nat := 86400

/-- `validateFee`: requires `MIN ≤ fee ≤ MAX`, else reverts
"Invalid fee amount".  In the source this is called only from
`setVerificationFee`. -/
def validateFee (fee : Nat) : Except VErr Unit :=
  if MIN_VERIFICATION_FEE ≤ fee ∧ fee ≤ MAX_VERIFICATION_FEE then .ok ()
  else .error .FeeOutOfRange

/-- `validateVerificationInput`: byte lengths of prompt and model must be
positive and within the fixed bounds. -/
def validateVerificationInput (prompt model : String) : Except VErr Unit :=
  if ¬ (0 < prompt.utf8ByteSize ∧ prompt.utf8ByteSize ≤ MAX_PROMPT_LENGTH) then
    .error .InvalidPrompt
  else if ¬ (0 < model.utf8ByteSize ∧ model.utf8ByteSize ≤ MAX_MODEL_LENGTH) then
    .error .InvalidModel
  else .ok ()

/-- `checkRateLimit(lastRequestTime, currentTime)`:
`currentTime >= lastRequestTime + RATE_LIMIT_WINDOW`. -/
def checkRateLimit (lastRequestTime currentTime : Nat) : Bool :=
  decide (currentTime ≥ lastRequestTime + RATE_LIMIT_WINDOW)

/-- `checkDailyLimit(dailyCount)`: `dailyCount < MAX_DAILY_REQUESTS`. -/
def checkDailyLimit (dailyCount : Nat) : Bool :=
  decide (dailyCount < MAX_DAILY_REQUESTS)

/-- `generateRequestId`: keccak of the packed tuple, idealized. -/
def generateRequestId (requester prompt model : String)
    (timestamp nonce : Nat) : B32 :=
  B32.reqId requester prompt model timestamp nonce

/-- `calculateOutputHash(output) = keccak256(abi.encodePacked(output))`,
idealized. -/
def calculateOutputHash (output : String) : B32 :=
  B32.outHash output

/-- `isRequestExpired(requestTime, currentTime)`:
`currentTime > requestTime + REQUEST_TIMEOUT`. -/
def isRequestExpired (requestTime currentTime : Nat) : Bool :=
  decide (currentTime > requestTime + REQUEST_TIMEOUT)

/-- `timestampToDay(timestamp, deploymentTime)`: requires
`timestamp >= deploymentTime` (revert "Invalid timestamp"), then whole days
since deployment. -/
def timestampToDay (timestamp deploymentTime : Nat) : Except VErr Nat :=
  if timestamp ≥ deploymentTime then .ok ((timestamp - deploymentTime) / 86400)
  else .error .TimestampBeforeDeployment

/-- `encodeVerificationData(prompt, model, requester, timestamp)`. -/
def encodeVerificationData (prompt model requester : String)
    (timestamp : Nat) : VerifData :=
  ⟨prompt, model, requester, timestamp⟩

end VerificationLibrary

/-- Solidity mapping assignment `m[k] = v` on an association list: the new
binding shadows any older one for `List.lookup`, which returns the first
match. -/
def mset {α β : Type} [BEq α] (k : α) (v : β) (m : List (α × β)) :
    List (α × β) :=
  (k, v) :: m

/-! ## SolanaOracleRelayer -/

/-- `AttestationRequest` struct of the relayer. -/
structure AttestationRequest where
  requester : String
  data : VerifData
  timestamp : Nat
  fulfilled : Bool
  attestationId : B32
deriving DecidableEq, Repr

/-- Relayer storage: `requests` and `processedAttestations`. -/
structure RelayerState where
  requests : List (B32 × AttestationRequest)
  processedAttestations : List B32
deriving DecidableEq, Repr

namespace SolanaOracleRelayer

/-- Existence probe the relayer uses: `requests[requestId].timestamp != 0`
(a missing mapping entry reads as the all-zero struct). -/
def storedTimestamp (rel : RelayerState) (requestId : B32) : Nat :=
  ((rel.requests.lookup requestId).map AttestationRequest.timestamp).getD 0

/-- `requestAttestation(requestId, verificationData)`.
`callerAuthorized` is the evaluated `onlyAuthorized` check for `caller`;
the error on a duplicate is the source's `RequestAlreadyProcessed`, reported
here as `DuplicateRequest`.  The forward to the Switchboard oracle is an
external boundary assumed available. -/
def requestAttestation (rel : RelayerState) (callerAuthorized : Bool)
    (caller : String) (requestId : B32) (verificationData : VerifData)
    (now blockNumber : Nat) : Except VErr (RelayerState × B32) :=
  if ¬ callerAuthorized then .error .Unauthorized
  else if storedTimestamp rel requestId ≠ 0 then .error .DuplicateRequest
  else
    let attestationId := B32.attId requestId caller verificationData now
      blockNumber
    let rel' : RelayerState :=
      { rel with requests := (mset requestId
          ⟨caller, verificationData, now, false, attestationId⟩ rel.requests) }
    .ok (rel', attestationId)

/-- `fulfillAttestation(requestId, result, proof)`: `InvalidRequest` when the
stored timestamp is zero, `RequestAlreadyProcessed` (here `AlreadyFulfilled`)
when already fulfilled, then requires nonempty proof, marks the record
fulfilled and flags its attestation id processed. -/
def fulfillAttestation (rel : RelayerState) (callerAuthorized : Bool)
    (requestId : B32) (_result proof : List Nat) : Except VErr RelayerState :=
  if ¬ callerAuthorized then .error .Unauthorized
  else
    match rel.requests.lookup requestId with
    | none => .error .RequestNotFound
    | some request =>
      if request.timestamp = 0 then .error .RequestNotFound
      else if request.fulfilled then .error .AlreadyFulfilled
      else if proof.length = 0 then .error .EmptyProof
      else
        .ok { rel with
          requests := mset requestId { request with fulfilled := true }
            rel.requests
          processedAttestations :=
            request.attestationId :: rel.processedAttestations }

/-- `verifyAttestation(attestationId)`: the `processedAttestations[id]`
boolean. -/
def verifyAttestation (rel : RelayerState) (attestationId : B32) : Bool :=
  rel.processedAttestations.contains attestationId

/-- `calculateSOLFee(usdFee)`.  `priceFeed` is the Pyth answer for
SOL/USD at call time (`none` = the external `getPrice` call reverts, which
propagates); reverts `InvalidPriceData` when `price <= 0`, else
`(usdFee * 1e18) / (price * 1e10)` lamports. -/
def calculateSOLFee (priceFeed : Option (Int × Nat)) (usdFee : Nat) :
    Except VErr Nat :=
  match priceFeed with
  | none => .error .InvalidPriceData
  | some (solPrice, _) =>
    if solPrice ≤ 0 then .error .InvalidPriceData
    else .ok ((usdFee * 10 ^ 18) / (solPrice.toNat * 10 ^ 10))

end SolanaOracleRelayer

/-! ## VeriAINFTSolana (certificate issuer) -/

/-- `VerificationMetadata` of the NFT contract.  `outputHash` holds the
`bytes32` value whose 32-byte packed string the source stores; the packing is
injective and always nonempty, so the hash value itself is kept. -/
structure VerificationMetadata where
  prompt : String
  model : String
  outputHash : B32
  timestamp : Nat
  proofHash : B32
  verified : Bool
  verifier : String
  requestId : B32
deriving DecidableEq, Repr

/-- The all-zero `VerificationMetadata` a missing mapping entry reads as. -/
def defaultMetadata : VerificationMetadata :=
  ⟨"", "", B32.zero, 0, B32.zero, false, "", B32.zero⟩

/-- NFT contract storage. -/
structure NFTState where
  tokenIdCounter : Nat
  owners : List (Nat × String)
  balances : String → Nat
  tokenURIs : List (Nat × String)
  tokenMetadata : List (Nat × VerificationMetadata)
  tokensByOwner : String → List Nat
  tokensByModel : String → List Nat
  baseTokenURI : String

namespace VeriAINFTSolana

/-- `_exists(tokenId)`: `_owners[tokenId] != address(0)`. -/
def tokenExists (nft : NFTState) (tokenId : Nat) : Bool :=
  ((nft.owners.lookup tokenId).getD "") ≠ ""

/-- `_validateMetadata`: nonempty prompt, model and output hash (the packed
`bytes32` string is always 32 bytes, so that check always passes), positive
timestamp, nonzero request id. -/
def validateMetadata (metadata : VerificationMetadata) : Except VErr Unit :=
  if ¬ (0 < metadata.prompt.utf8ByteSize) then .error .InvalidMetadata
  else if ¬ (0 < metadata.model.utf8ByteSize) then .error .InvalidMetadata
  else if ¬ (0 < metadata.timestamp) then .error .InvalidMetadata
  else if metadata.requestId = B32.zero then .error .InvalidMetadata
  else .ok ()

/-- `_generateTokenURI`: `baseURI ++ toString(timestamp) ++ "?model=" ++
model ++ "&verified=" ++ ("true"/"false")`. -/
def generateTokenURI (baseTokenURI : String)
    (metadata : VerificationMetadata) : String :=
  baseTokenURI ++ toString metadata.timestamp ++ "?model=" ++ metadata.model
    ++ "&verified=" ++ (if metadata.verified then "true" else "false")

/-- `mintVerificationNFT(recipient, metadata)`: requires the minter role and
a nonzero recipient, validates metadata, allocates the monotonic token id
(reverting if the id already exists), stores owner, metadata and URI, and
appends the id to the owner and model indices. -/
def mintVerificationNFT (nft : NFTState) (callerIsMinter : Bool)
    (recipient : String) (metadata : VerificationMetadata) :
    Except VErr (NFTState × Nat) :=
  if ¬ callerIsMinter then .error .Unauthorized
  else if recipient = "" then .error .InvalidRecipient
  else
    match validateMetadata metadata with
    | .error e => .error e
    | .ok () =>
      let tokenId := nft.tokenIdCounter
      if tokenExists nft tokenId then .error .TokenAlreadyExists
      else
        .ok ({ nft with
          tokenIdCounter := tokenId + 1
          owners := mset tokenId recipient nft.owners
          balances := fun a =>
            if a = recipient then nft.balances a + 1 else nft.balances a
          tokenMetadata := mset tokenId metadata nft.tokenMetadata
          tokenURIs := mset tokenId
            (generateTokenURI nft.baseTokenURI metadata) nft.tokenURIs
          tokensByOwner := fun a =>
            if a = recipient then nft.tokensByOwner a ++ [tokenId]
            else nft.tokensByOwner a
          tokensByModel := fun m =>
            if m = metadata.model then nft.tokensByModel m ++ [tokenId]
            else nft.tokensByModel m }, tokenId)

/-- `isVerificationValid(tokenId)`: `false` for a nonexistent token, else
`metadata.verified && (block.timestamp - metadata.timestamp) < 2592000`;
the checked subtraction reverts when the stored timestamp is in the
future. -/
def isVerificationValid (nft : NFTState) (tokenId now : Nat) :
    Except VErr Bool :=
  if ¬ tokenExists nft tokenId then .ok false
  else
    let metadata := (nft.tokenMetadata.lookup tokenId).getD defaultMetadata
    if metadata.timestamp > now then .error .ArithmeticUnderflow
    else .ok (metadata.verified && decide (now - metadata.timestamp < 2592000))

end VeriAINFTSolana

/-! ## VeriAISolana (verification registry) -/

/-- `VerificationRequest` struct of the registry. -/
structure VerificationRequest where
  requester : String
  prompt : String
  model : String
  timestamp : Nat
  status : VStatus
  outputHash : B32
  attestationId : B32
  feePaid : Nat
  nftMinted : Bool
deriving DecidableEq, Repr

/-- Combined storage of the `VeriAISolana` contract together with its
collaborators (relayer and NFT contract) and the evaluated role checks:
`oracleRoleAdmin` is `hasRole(ORACLE_ROLE, _admin)` (the `msgSender()` shim
always answers the admin), `relayerAuthorizedSelf` is
`authorizedCallers[address(this)]` on the relayer, and `nftMinterRole` is the
NFT contract's evaluated `MINTER_ROLE` check. -/
structure SysState where
  requestCounter : Nat
  verificationFee : Nat
  paused : Bool
  deploymentTime : Nat
  selfAddr : String
  admin : String
  oracleRoleAdmin : Bool
  requests : List (B32 × VerificationRequest)
  userRequests : String → List B32
  requestCount : String → Nat
  lastRequestTime : String → Nat
  dailyRequestCount : String → Nat → Nat
  totalRequests : Nat
  totalVerified : Nat
  totalFailed : Nat
  relayer : RelayerState
  relayerAuthorizedSelf : Bool
  nft : NFTState
  nftMinterRole : Bool

namespace VeriAISolana

open VerificationLibrary SolanaOracleRelayer

/-- `_calculateDynamicFee()`.  `priceFeed` is the external
`getSOLUSDPrice()` answer (`none` = that call reverts, which the `try`'s
`catch` turns into the static fee).  A stale price (older than one hour)
falls back to the static fee; a fresh price is fed to `calculateSOLFee`,
whose `InvalidPriceData` revert is outside the `catch` and propagates, as
does the checked subtraction `block.timestamp - timestamp`. -/
def calculateDynamicFee (priceFeed : Option (Int × Nat)) (now staticFee : Nat) :
    Except VErr Nat :=
  match priceFeed with
  | none => .ok staticFee
  | some (solPrice, timestamp) =>
    if timestamp > now then .error .ArithmeticUnderflow
    else if now - timestamp > 3600 then .ok staticFee
    else SolanaOracleRelayer.calculateSOLFee (some (solPrice, timestamp))
      (100 * 10 ^ 6)

/-- Body shared verbatim by the two `requestVerification` overloads (they
differ only in who supplies `requester` and in their guards): input
validation, dynamic fee check against `msg.value`, rate limit, daily limit,
request-id generation, record insertion, activity tracking, attestation
request with the returned id stored on the record, and the treasury fee
transfer whose failure aborts the submission. -/
def requestVerificationCore (s : SysState) (requester prompt model : String)
    (value now blockNumber : Nat) (priceFeed : Option (Int × Nat))
    (treasuryTransferOk : Bool) : Except VErr (SysState × B32) :=
  match validateVerificationInput prompt model with
  | .error e => .error e
  | .ok () =>
    match calculateDynamicFee priceFeed now s.verificationFee with
    | .error e => .error e
    | .ok requiredFee =>
      if value < requiredFee then .error .InsufficientFee
      else if ¬ checkRateLimit (s.lastRequestTime requester) now then
        .error .RateLimitExceeded
      else
        match timestampToDay now s.deploymentTime with
        | .error e => .error e
        | .ok currentDay =>
          if ¬ checkDailyLimit (s.dailyRequestCount requester currentDay) then
            .error .DailyLimitExceeded
          else
            let requestId :=
              generateRequestId requester prompt model now s.requestCounter
            let request : VerificationRequest :=
              ⟨requester, prompt, model, now, .Pending, .zero, .zero, value,
                false⟩
            let verificationData :=
              encodeVerificationData prompt model requester now
            match requestAttestation s.relayer s.relayerAuthorizedSelf
              s.selfAddr requestId verificationData now blockNumber with
            | .error e => .error e
            | .ok (rel', attestationId) =>
              if ¬ treasuryTransferOk then .error .FeeTransferFailed
              else
                .ok ({ s with
                  requests := (mset requestId
                    { request with attestationId := attestationId } s.requests)
                  userRequests := fun a =>
                    if a = requester then s.userRequests a ++ [requestId]
                    else s.userRequests a
                  requestCount := fun a =>
                    if a = requester then s.requestCount a + 1
                    else s.requestCount a
                  lastRequestTime := fun a =>
                    if a = requester then now else s.lastRequestTime a
                  dailyRequestCount := fun a d =>
                    if a = requester ∧ d = currentDay then
                      s.dailyRequestCount a d + 1
                    else s.dailyRequestCount a d
                  requestCounter := s.requestCounter + 1
                  totalRequests := s.totalRequests + 1
                  relayer := rel' }, requestId)

/-- Caller-pays `requestVerification(prompt, model)`: guarded by
`whenNotPaused` and `nonReentrant`; the requester recorded is `msgSender()`,
which the shim resolves to the admin. -/
def requestVerificationSelf (s : SysState) (prompt model : String)
    (value now blockNumber : Nat) (priceFeed : Option (Int × Nat))
    (treasuryTransferOk : Bool) : Except VErr (SysState × B32) :=
  if s.paused then .error .ContractPaused
  else requestVerificationCore s s.admin prompt model value now blockNumber
    priceFeed treasuryTransferOk

/-- Backend `requestVerification(requester, prompt, model)`: guarded by
`whenNotPaused`, `nonReentrant` and `onlyRole(ORACLE_ROLE)`, and requires a
nonzero requester; otherwise identical admission logic and tracking keyed by
the supplied requester. -/
def requestVerificationFor (s : SysState) (requester prompt model : String)
    (value now blockNumber : Nat) (priceFeed : Option (Int × Nat))
    (treasuryTransferOk : Bool) : Except VErr (SysState × B32) :=
  if s.paused then .error .ContractPaused
  else if ¬ s.oracleRoleAdmin then .error .Unauthorized
  else if requester = "" then .error .InvalidRequester
  else requestVerificationCore s requester prompt model value now blockNumber
    priceFeed treasuryTransferOk

/-- `fulfillVerification(requestId, output, attestationId, proof)`, guarded
by `onlyRole(ORACLE_ROLE)`.  Check order as in the source: request existence
(`requester != address(0)`), `Pending` status, relayer-reported attestation
validity, attestation match, then expiry; on success the request becomes
`Verified` with the output hash stored, the certificate NFT is minted (its
token id is returned, as carried by the `NFTMinted` event) and `nftMinted`
is set. -/
def fulfillVerification (s : SysState) (hasOracleRole : Bool)
    (requestId : B32) (output : String) (attestationId : B32)
    (proof : List Nat) (now : Nat) : Except VErr (SysState × Nat) :=
  if ¬ hasOracleRole then .error .Unauthorized
  else
    match s.requests.lookup requestId with
    | none => .error .RequestNotFound
    | some request =>
      if request.requester = "" then .error .RequestNotFound
      else if request.status ≠ .Pending then .error .AlreadyFulfilled
      else if ¬ verifyAttestation s.relayer attestationId then
        .error .InvalidAttestation
      else if request.attestationId ≠ attestationId then
        .error .AttestationMismatch
      else if isRequestExpired request.timestamp now then
        .error .RequestExpired
      else
        let outputHash := calculateOutputHash output
        let proofHash := B32.proofHash proof
        let metadata : VerificationMetadata :=
          ⟨request.prompt, request.model, outputHash, request.timestamp,
            proofHash, true, s.admin, requestId⟩
        match VeriAINFTSolana.mintVerificationNFT s.nft s.nftMinterRole
          request.requester metadata with
        | .error e => .error e
        | .ok (nft', tokenId) =>
          .ok ({ s with
            requests := (mset requestId
              { request with
                  status := .Verified
                  outputHash := outputHash
                  nftMinted := true } s.requests)
            totalVerified := s.totalVerified + 1
            nft := nft' }, tokenId)

/-- `markVerificationFailed(requestId, reason)`, guarded by
`onlyRole(ORACLE_ROLE)`: requires the request to exist and be `Pending`,
then sets `Failed`.  `reason` is carried only by the event. -/
def markVerificationFailed (s : SysState) (hasOracleRole : Bool)
    (requestId : B32) (_reason : String) : Except VErr SysState :=
  if ¬ hasOracleRole then .error .Unauthorized
  else
    match s.requests.lookup requestId with
    | none => .error .RequestNotFound
    | some request =>
      if request.requester = "" then .error .RequestNotFound
      else if request.status ≠ .Pending then .error .AlreadyProcessed
      else
        .ok { s with
          requests := (mset requestId { request with status := .Failed }
            s.requests)
          totalFailed := s.totalFailed + 1 }

/-- `verifyOutput(requestId, output)`: a view returning `false` unless the
stored status is `Verified` (a missing entry reads as the all-zero struct,
whose status is `Pending`), else whether the output hashes to the stored
hash. -/
def verifyOutput (s : SysState) (requestId : B32) (output : String) : Bool :=
  match s.requests.lookup requestId with
  | none => false
  | some request =>
    if request.status ≠ .Verified then false
    else calculateOutputHash output == request.outputHash

end VeriAISolana

/-! ## MultichainContractService (router) -/

/-- `ChainType = 'ethereum' | 'solana'`. -/
inductive ChainT
  | ethereum
  | solana
deriving DecidableEq, Repr

/-- The NFT payload a per-chain service returns (fields of
`MultichainNFTData` minus the chain tag, which the router model attaches). -/
structure RouterNFTData where
  owner : String
  prompt : String
  output : String
  model : String
  verificationId : String
  timestamp : String
deriving DecidableEq, Repr

/-- Router state: the per-chain contract services are modelled at their
interface boundary as token stores (the source backs them with mocked
ledger queries, which the spec places out of scope), plus the configured
default chain. -/
structure RouterState where
  solanaTokens : List (String × RouterNFTData)
  ethereumTokens : List (String × RouterNFTData)
  defaultChain : ChainT
deriving DecidableEq, Repr

namespace MultichainContractService

/-- Executable model of `String.startsWith` (the built-in is backed by an
unreducible substring primitive): the marker's characters lead the
string's. -/
def strStartsWith (tokenId marker : String) : Bool :=
  leads marker.data tokenId.data
where
  /-- `leads ms cs`: `ms` is an initial run of `cs`. -/
  leads : List Char → List Char → Bool
    | [], _ => true
    | _ :: _, [] => false
    | m :: ms, c :: cs => m = c && leads ms cs

/-- `detectChainFromTokenId(tokenId)`: chain-specific leading markers
`sol_`/`solana_` and `eth_`/`ethereum_`; anything else resolves to the
configured default chain (the function never reports failure). -/
def detectChainFromTokenId (defaultChain : ChainT) (tokenId : String) :
    ChainT :=
  if strStartsWith tokenId "sol_" || strStartsWith tokenId "solana_" then
    .solana
  else if strStartsWith tokenId "eth_" || strStartsWith tokenId "ethereum_"
    then .ethereum
  else defaultChain

/-- One chain service's `getNFT`: lookup in that chain's store, tagging the
result with the chain. -/
def chainGetNFT (r : RouterState) (chain : ChainT) (tokenId : String) :
    Option (RouterNFTData × ChainT) :=
  match chain with
  | .solana => (r.solanaTokens.lookup tokenId).map (·, ChainT.solana)
  | .ethereum => (r.ethereumTokens.lookup tokenId).map (·, ChainT.ethereum)

/-- Router `getNFT(tokenId, chain?)`: with `chain` omitted the target chain
is `detectChainFromTokenId`; the resulting switch queries exactly that
chain's service.  The source's `default:` arm — probing Solana then
Ethereum — is unreachable, since `ChainType` has exactly the two values the
switch enumerates and detection always returns one of them. -/
def getNFT (r : RouterState) (tokenId : String) (chain : Option ChainT) :
    Option (RouterNFTData × ChainT) :=
  let targetChain :=
    match chain with
    | some c => c
    | none => detectChainFromTokenId r.defaultChain tokenId
  match targetChain with
  | .solana => chainGetNFT r .solana tokenId
  | .ethereum => chainGetNFT r .ethereum tokenId

end MultichainContractService

/-! ## Derived observations used by the theorems -/

/-- Status of a stored request (`none` when the id is unknown). -/
def requestStatus (s : SysState) (requestId : B32) : Option VStatus :=
  (s.requests.lookup requestId).map VerificationRequest.status

/-- Number of certificates in the NFT store whose metadata is bound to the
given request id (counted over the token-id domain `[0, tokenIdCounter)`,
the ids the counter has ever handed out). -/
def certCountFor (nft : NFTState) (requestId : B32) : Nat :=
  ((List.range nft.tokenIdCounter).filter (fun tokenId =>
    (((nft.tokenMetadata.lookup tokenId).getD defaultMetadata).requestId
      == requestId)
    && VeriAINFTSolana.tokenExists nft tokenId)).length

/-! ## Concrete execution scenario

A deployment with static fee `10^15` (the library's minimum), deployed at
time 0, admin `"admin"`, registry address `"veriai"`, all role checks
granted, through which a request is submitted, its attestation fulfilled on
the relayer, and the verification fulfilled on the registry. -/

/-- State extractor for `Except VErr (SysState × B32)` results. -/
def okStateB32 (r : Except VErr (SysState × B32)) (fallback : SysState) :
    SysState :=
  match r with
  | .ok (s, _) => s
  | .error _ => fallback

/-- State extractor for `Except VErr (SysState × Nat)` results. -/
def okStateNat (r : Except VErr (SysState × Nat)) (fallback : SysState) :
    SysState :=
  match r with
  | .ok (s, _) => s
  | .error _ => fallback

/-- State extractor for relayer call results. -/
def okRelayer (r : Except VErr RelayerState) (fallback : RelayerState) :
    RelayerState :=
  match r with
  | .ok rel => rel
  | .error _ => fallback

/-- Freshly constructed NFT contract storage. -/
def emptyNFT : NFTState where
  tokenIdCounter := 0
  owners := []
  balances := fun _ => 0
  tokenURIs := []
  tokenMetadata := []
  tokensByOwner := fun _ => []
  tokensByModel := fun _ => []
  baseTokenURI := "https://api.veriai.app/metadata/"

/-- Freshly deployed system. -/
def sys0 : SysState where
  requestCounter := 0
  verificationFee := 10 ^ 15
  paused := false
  deploymentTime := 0
  selfAddr := "veriai"
  admin := "admin"
  oracleRoleAdmin := true
  requests := []
  userRequests := fun _ => []
  requestCount := fun _ => 0
  lastRequestTime := fun _ => 0
  dailyRequestCount := fun _ _ => 0
  totalRequests := 0
  totalVerified := 0
  totalFailed := 0
  relayer := ⟨[], []⟩
  relayerAuthorizedSelf := true
  nft := emptyNFT
  nftMinterRole := true

/-- The request id allocated for Alice's submission at time 100. -/
def rid0 : B32 := B32.reqId "alice" "p" "m" 100 0

/-- The attestation id the relayer derives for that submission. -/
def att0 : B32 := B32.attId rid0 "veriai" ⟨"p", "m", "alice", 100⟩ 100 1

/-- Alice's verification request record as stored by the submission. -/
def reqA : VerificationRequest :=
  ⟨"alice", "p", "m", 100, .Pending, .zero, att0, 10 ^ 15, false⟩

/-- After the backend submits for Alice at time 100 (block 1, price feed
unavailable so the static fee applies, value exactly the static fee). -/
def sysA : SysState :=
  okStateB32
    (VeriAISolana.requestVerificationFor sys0 "alice" "p" "m" (10 ^ 15) 100 1
      none true) sys0

/-- After the oracle backend fulfills the attestation on the relayer. -/
def sysB : SysState :=
  { sysA with relayer :=
      (okRelayer
        (SolanaOracleRelayer.fulfillAttestation sysA.relayer true rid0 [1] [2])
        sysA.relayer) }

/-- After the registry fulfills the verification at time 86500 (exactly the
24-hour boundary, not yet expired), minting certificate token 0. -/
def sysC : SysState :=
  okStateNat
    (VeriAISolana.fulfillVerification sysB true rid0 "out" att0 [3] 86500)
    sysB

/-- The paused variant of `sysB`, for the pause-gating claim. -/
def sysP : SysState := { sysB with paused := true }

/-! ## Helper lemmas -/

theorem lookup_mset_self {α β : Type} [DecidableEq α] (k : α) (v : β)
    (m : List (α × β)) : (mset k v m).lookup k = some v := by
  simp [mset, List.lookup]

theorem lookup_mset_ne {α β : Type} [DecidableEq α] {k k' : α} (v : β)
    (m : List (α × β)) (h : k' ≠ k) :
    (mset k v m).lookup k' = m.lookup k' := by
  simp [mset, List.lookup, beq_false_of_ne h]

theorem mint_ok_spec {nft : NFTState} {minter : Bool} {recipient : String}
    {md : VerificationMetadata} {nft' : NFTState} {tokenId : Nat}
    (h : VeriAINFTSolana.mintVerificationNFT nft minter recipient md
      = .ok (nft', tokenId)) :
    tokenId = nft.tokenIdCounter ∧ recipient ≠ "" ∧
    VeriAINFTSolana.tokenExists nft tokenId = false ∧
    nft'.tokenIdCounter = nft.tokenIdCounter + 1 ∧
    nft'.owners = mset tokenId recipient nft.owners ∧
    nft'.tokenMetadata = mset tokenId md nft.tokenMetadata := by
  unfold VeriAINFTSolana.mintVerificationNFT at h
  split at h
  · simp at h
  split at h
  · simp at h
  split at h
  · simp at h
  dsimp only at h
  split at h
  · simp at h
  rename_i hminter hrec _ _ hex
  simp only [Except.ok.injEq, Prod.mk.injEq] at h
  obtain ⟨h1, h2⟩ := h
  subst h1
  subst h2
  refine ⟨rfl, hrec, by simpa using hex, rfl, rfl, rfl⟩

theorem certCountFor_mint_ok {nft : NFTState} {minter : Bool}
    {recipient : String} {md : VerificationMetadata} {nft' : NFTState}
    {tokenId : Nat}
    (h : VeriAINFTSolana.mintVerificationNFT nft minter recipient md
      = .ok (nft', tokenId)) :
    certCountFor nft' md.requestId = certCountFor nft md.requestId + 1 := by
  obtain ⟨ht, hrec, hex, hctr, how, hmd⟩ := mint_ok_spec h
  subst ht
  unfold certCountFor
  rw [hctr, List.range_succ, List.filter_append, List.length_append]
  have hsingle :
      (List.filter (fun t =>
        ((((nft'.tokenMetadata.lookup t).getD defaultMetadata).requestId
          == md.requestId) && VeriAINFTSolana.tokenExists nft' t))
        [nft.tokenIdCounter]).length = 1 := by
    simp [List.filter, hmd, how, lookup_mset_self, VeriAINFTSolana.tokenExists,
      hrec]
  rw [hsingle]
  have hcongr : ∀ t ∈ List.range nft.tokenIdCounter,
      ((((nft'.tokenMetadata.lookup t).getD defaultMetadata).requestId
        == md.requestId) && VeriAINFTSolana.tokenExists nft' t)
      = ((((nft.tokenMetadata.lookup t).getD defaultMetadata).requestId
        == md.requestId) && VeriAINFTSolana.tokenExists nft t) := by
    intro t htmem
    have hlt : t < nft.tokenIdCounter := List.mem_range.mp htmem
    have hne : t ≠ nft.tokenIdCounter := Nat.ne_of_lt hlt
    simp [VeriAINFTSolana.tokenExists, hmd, how, lookup_mset_ne _ _ hne]
  rw [List.filter_congr hcongr]

/-! ## Claim theorems -/

/-- C1: a successful `fulfillVerification` on a request id is exactly-once —
it sets the stored status to `Verified` and mints exactly one certificate
bound to that request id, and any later `fulfillVerification` call on the
same request id (whatever output, attestation id, proof or time it supplies)
fails with `AlreadyFulfilled`, so no second certificate is ever minted for
the id. -/
theorem C1_fulfill_exactly_once
    {s s' : SysState} {requestId : B32} {output : String}
    {attestationId : B32} {proof : List Nat} {now : Nat} {tokenId : Nat}
    (h : VeriAISolana.fulfillVerification s true requestId output
      attestationId proof now = .ok (s', tokenId)) :
    requestStatus s' requestId = some .Verified
    ∧ certCountFor s'.nft requestId = certCountFor s.nft requestId + 1
    ∧ ∀ (output2 : String) (attestationId2 : B32) (proof2 : List Nat)
        (now2 : Nat),
        VeriAISolana.fulfillVerification s' true requestId output2
          attestationId2 proof2 now2 = .error .AlreadyFulfilled := by
  unfold VeriAISolana.fulfillVerification at h
  split at h
  · simp at h
  split at h
  · simp at h
  split at h
  · simp at h
  split at h
  · simp at h
  split at h
  · simp at h
  split at h
  · simp at h
  split at h
  · simp at h
  dsimp only at h
  split at h
  · simp at h
  rename_i request hreq hstatus hatt hmatch hexp mintResult nft' tokenId'
    hmint
  simp only [Except.ok.injEq, Prod.mk.injEq] at h
  obtain ⟨h1, h2⟩ := h
  subst h1
  subst h2
  refine ⟨?_, ?_, ?_⟩
  · simp [requestStatus, lookup_mset_self]
  · exact certCountFor_mint_ok hmint
  · intro output2 attestationId2 proof2 now2
    simp [VeriAISolana.fulfillVerification, lookup_mset_self, hreq]

/-- Witness for C1: in the concrete scenario the fulfillment at time 86500
succeeds, the status becomes `Verified`, exactly one certificate for `rid0`
is minted, and a repeated fulfillment fails `AlreadyFulfilled`. -/
theorem C1_fulfill_exactly_once_witness :
    VeriAISolana.fulfillVerification sysB true rid0 "out" att0 [3] 86500
      = .ok (sysC, 0)
    ∧ requestStatus sysC rid0 = some .Verified
    ∧ certCountFor sysC.nft rid0 = certCountFor sysB.nft rid0 + 1
    ∧ VeriAISolana.fulfillVerification sysC true rid0 "x" att0 [4] 90000
      = .error .AlreadyFulfilled := by
  have h : VeriAISolana.fulfillVerification sysB true rid0 "out" att0 [3]
      86500 = .ok (sysC, 0) := by rfl
  obtain ⟨h1, h2, h3⟩ := C1_fulfill_exactly_once h
  exact ⟨h, h1, h2, h3 "x" att0 [4] 90000⟩

/-- C2 counterexample: a fee of 2 native units is strictly above the
library's maximum bound (`validateFee` rejects it `FeeOutOfRange`), yet the
submission entry point accepts it and creates a `Pending`
`VerificationRequest` — submission never consults the fee bounds. -/
theorem C2_fee_bounds_counterexample :
    VerificationLibrary.validateFee (2 * 10 ^ 18) = .error .FeeOutOfRange
    ∧ (VeriAISolana.requestVerificationFor sys0 "alice" "p" "m" (2 * 10 ^ 18)
        100 1 none true).isOk = true
    ∧ requestStatus
        (okStateB32 (VeriAISolana.requestVerificationFor sys0 "alice" "p" "m"
          (2 * 10 ^ 18) 100 1 none true) sys0)
        (B32.reqId "alice" "p" "m" 100 0) = some .Pending := by
  refine ⟨by rfl, by rfl, by rfl⟩

/-- C2 amended: submission enforces only a lower bound equal to the
dynamically computed required fee (with static fallback): whenever
`msg.value` is below that required fee the call fails `InsufficientFee` and,
the call reverting, no `VerificationRequest` is created; the
`min ≤ fee ≤ max` bounds of `validateFee` are not checked at submission. -/
theorem C2_fee_check_amended
    {s : SysState} {requester prompt model : String}
    {value now blockNumber : Nat} {priceFeed : Option (Int × Nat)}
    {transferOk : Bool} {requiredFee : Nat}
    (hpause : s.paused = false) (hrole : s.oracleRoleAdmin = true)
    (hreq : requester ≠ "")
    (hinput : VerificationLibrary.validateVerificationInput prompt model
      = .ok ())
    (hfee : VeriAISolana.calculateDynamicFee priceFeed now s.verificationFee
      = .ok requiredFee)
    (hlt : value < requiredFee) :
    VeriAISolana.requestVerificationFor s requester prompt model value now
      blockNumber priceFeed transferOk = .error .InsufficientFee := by
  simp [VeriAISolana.requestVerificationFor,
    VeriAISolana.requestVerificationCore, hpause, hrole, hreq, hinput, hfee,
    hlt]

/-- Witness for C2 amended: a value of `10^14` (below the static fee
`10^15` in force with the price feed unavailable) is rejected
`InsufficientFee`. -/
theorem C2_fee_check_amended_witness :
    VeriAISolana.requestVerificationFor sys0 "alice" "p" "m" (10 ^ 14) 100 1
      none true = .error .InsufficientFee := by
  have hfee : VeriAISolana.calculateDynamicFee none 100 sys0.verificationFee
      = .ok (10 ^ 15) := by rfl
  exact C2_fee_check_amended rfl rfl (by decide) rfl hfee (by norm_num)

/-- C3 counterexample: at time 86501 the request created at time 100 is past
its 24-hour expiry, yet with its attestation not (yet) reported valid the
fulfillment fails `InvalidAttestation`, not `RequestExpired` — the expiry
failure IS pre-empted by the attestation-related failure. -/
theorem C3_expiry_order_counterexample :
    VerificationLibrary.isRequestExpired 100 86501 = true
    ∧ (sysA.requests.lookup rid0).map VerificationRequest.timestamp = some 100
    ∧ VeriAISolana.fulfillVerification sysA true rid0 "out" att0 [3] 86501
      = .error .InvalidAttestation := by
  refine ⟨by decide, by rfl, by rfl⟩

/-- C3 amended: for an expired `Pending` request, `fulfillVerification`
fails `RequestExpired` provided the supplied attestation id is reported
valid by the relayer and matches the stored one; the attestation-validity
and attestation-match checks run first, so their failures pre-empt the
expiry failure. -/
theorem C3_expiry_after_attestation_amended
    {s : SysState} {requestId : B32} {output : String} {attestationId : B32}
    {proof : List Nat} {now : Nat} {request : VerificationRequest}
    (hlook : s.requests.lookup requestId = some request)
    (hreq : request.requester ≠ "")
    (hstatus : request.status = .Pending)
    (hvalid : SolanaOracleRelayer.verifyAttestation s.relayer attestationId
      = true)
    (hmatch : request.attestationId = attestationId)
    (hexp : VerificationLibrary.isRequestExpired request.timestamp now
      = true) :
    VeriAISolana.fulfillVerification s true requestId output attestationId
      proof now = .error .RequestExpired := by
  simp [VeriAISolana.fulfillVerification, hlook, hreq, hstatus, hvalid,
    hmatch, hexp]

/-- Witness for C3 amended: with the attestation fulfilled on the relayer,
fulfilling the expired request at time 86501 fails `RequestExpired`. -/
theorem C3_expiry_after_attestation_witness :
    VeriAISolana.fulfillVerification sysB true rid0 "out" att0 [3] 86501
      = .error .RequestExpired := by
  have hlook : sysB.requests.lookup rid0 = some reqA := by rfl
  exact C3_expiry_after_attestation_amended hlook (by decide) rfl (by rfl)
    rfl (by decide)

/-- C4 counterexample: with a perfectly fresh price feed reporting price 0
(invalid, `<= 0`), the dynamic fee computation reverts `InvalidPriceData`
instead of falling back to the static fee, and the whole well-formed
submission is rejected purely because of the oracle's answer — the `catch`
covers only a failing `getSOLUSDPrice` call, not the `calculateSOLFee`
revert. -/
theorem C4_invalid_price_counterexample :
    VeriAISolana.calculateDynamicFee (some (0, 100)) 100 sys0.verificationFee
      = .error .InvalidPriceData
    ∧ VeriAISolana.requestVerificationFor sys0 "alice" "p" "m" (10 ^ 15) 100
        1 (some (0, 100)) true = .error .InvalidPriceData :=
  ⟨by rfl, by rfl⟩

/-- C4 amended: the static-fee fallback covers a failing price query and a
stale price (older than one hour) — in the stale case the submission
behaves exactly as if the feed were unavailable — but a fresh price that is
invalid (`<= 0`) is not covered: the fee conversion reverts
`InvalidPriceData` and the submission is rejected. -/
theorem C4_fee_fallback_amended
    {s : SysState} {requester prompt model : String}
    {value now blockNumber : Nat} {transferOk : Bool} {p : Int} {ts : Nat}
    (hts : ts ≤ now) :
    VeriAISolana.calculateDynamicFee none now s.verificationFee
      = .ok s.verificationFee
    ∧ (now - ts > 3600 →
        VeriAISolana.calculateDynamicFee (some (p, ts)) now s.verificationFee
          = .ok s.verificationFee
        ∧ VeriAISolana.requestVerificationFor s requester prompt model value
            now blockNumber (some (p, ts)) transferOk
          = VeriAISolana.requestVerificationFor s requester prompt model
            value now blockNumber none transferOk)
    ∧ (now - ts ≤ 3600 → p ≤ 0 →
        VeriAISolana.calculateDynamicFee (some (p, ts)) now s.verificationFee
          = .error .InvalidPriceData) := by
  have hnone : VeriAISolana.calculateDynamicFee none now s.verificationFee
      = .ok s.verificationFee := by rfl
  refine ⟨hnone, ?_, ?_⟩
  · intro hstale
    have hng : ¬ ts > now := by omega
    have hsome : VeriAISolana.calculateDynamicFee (some (p, ts)) now
        s.verificationFee = .ok s.verificationFee := by
      simp [VeriAISolana.calculateDynamicFee, hng, hstale]
    refine ⟨hsome, ?_⟩
    simp only [VeriAISolana.requestVerificationFor,
      VeriAISolana.requestVerificationCore, hsome, hnone]
  · intro hfresh hinvalid
    have hng : ¬ ts > now := by omega
    have hng2 : ¬ now - ts > 3600 := by omega
    simp [VeriAISolana.calculateDynamicFee, SolanaOracleRelayer.calculateSOLFee,
      hng, hng2, hinvalid]

/-- Witness for C4 amended: a stale feed (price from time 100 queried at
time 10000) yields the static fee, while a fresh feed with price 0 queried
at time 200 reverts `InvalidPriceData`. -/
theorem C4_fee_fallback_witness :
    VeriAISolana.calculateDynamicFee (some (5, 100)) 10000 sys0.verificationFee
      = .ok sys0.verificationFee
    ∧ VeriAISolana.calculateDynamicFee (some (0, 100)) 200 sys0.verificationFee
      = .error .InvalidPriceData := by
  refine ⟨?_, ?_⟩
  · exact ((@C4_fee_fallback_amended sys0 "alice" "p" "m" 0 10000 1 true 5 100
      (by norm_num)).2.1 (by norm_num)).1
  · exact (@C4_fee_fallback_amended sys0 "alice" "p" "m" 0 200 1 true 0 100
      (by norm_num)).2.2 (by norm_num) (by norm_num)

/-- C5: `verifyOutput(requestId, output)` is true exactly when the stored
request has status `Verified` and the deterministic output hash of the
supplied output equals the stored one; any other output (the idealized hash
being injective) or any non-`Verified` status — including an unknown id —
gives false.  The embedding types it as a pure function of the state, so it
mutates nothing. -/
theorem C5_verifyOutput_iff (s : SysState) (requestId : B32)
    (output : String) :
    VeriAISolana.verifyOutput s requestId output = true ↔
      ∃ request, s.requests.lookup requestId = some request
        ∧ request.status = .Verified
        ∧ VerificationLibrary.calculateOutputHash output
          = request.outputHash := by
  cases hl : s.requests.lookup requestId with
  | none => simp [VeriAISolana.verifyOutput, hl]
  | some request =>
    by_cases hstat : request.status = .Verified
    · simp [VeriAISolana.verifyOutput, hl, hstat]
    · simp [VeriAISolana.verifyOutput, hl, hstat]

theorem submitFor_ok_spec
    {s s' : SysState} {requester prompt model : String}
    {value now blockNumber : Nat} {priceFeed : Option (Int × Nat)}
    {transferOk : Bool} {requestId : B32}
    (h : VeriAISolana.requestVerificationFor s requester prompt model value
      now blockNumber priceFeed transferOk = .ok (s', requestId)) :
    s.paused = false ∧ s.oracleRoleAdmin = true ∧ requester ≠ ""
    ∧ s'.paused = s.paused ∧ s'.oracleRoleAdmin = s.oracleRoleAdmin
    ∧ s'.verificationFee = s.verificationFee
    ∧ s'.lastRequestTime requester = now
    ∧ s'.totalRequests = s.totalRequests + 1
    ∧ requestStatus s' requestId = some .Pending := by
  unfold VeriAISolana.requestVerificationFor at h
  split at h
  · simp at h
  split at h
  · simp at h
  split at h
  · simp at h
  rename_i hpause hrole hreq
  unfold VeriAISolana.requestVerificationCore at h
  split at h
  · simp at h
  split at h
  · simp at h
  split at h
  · simp at h
  split at h
  · simp at h
  split at h
  · simp at h
  split at h
  · simp at h
  dsimp only at h
  split at h
  · simp at h
  split at h
  · simp at h
  simp only [Except.ok.injEq, Prod.mk.injEq] at h
  obtain ⟨h1, h2⟩ := h
  subst h1
  refine ⟨by simpa using hpause, by simpa using hrole, hreq, rfl, rfl, rfl,
    by simp, rfl, ?_⟩
  subst h2
  simp [requestStatus, lookup_mset_self]

/-- C6: the rate-limit predicate passes exactly when at least the 60-second
window has elapsed since the requester's last request, and consequently
after one accepted submission any second submission by the same requester
strictly within 60 seconds — however well-formed and well-funded — fails
`RateLimitExceeded` (the call reverting, the requester's activity counters
are untouched). -/
theorem C6_rate_limit_window :
    (∀ last now, VerificationLibrary.checkRateLimit last now = true ↔
      now ≥ last + VerificationLibrary.RATE_LIMIT_WINDOW)
    ∧ ∀ (s s' : SysState) (requester prompt1 model1 prompt2 model2 : String)
        (v1 v2 t1 t2 bn1 bn2 : Nat) (feed1 feed2 : Option (Int × Nat))
        (tk1 tk2 : Bool) (rid : B32) (f2 : Nat),
        VeriAISolana.requestVerificationFor s requester prompt1 model1 v1 t1
          bn1 feed1 tk1 = .ok (s', rid) →
        t2 < t1 + VerificationLibrary.RATE_LIMIT_WINDOW →
        VerificationLibrary.validateVerificationInput prompt2 model2
          = .ok () →
        VeriAISolana.calculateDynamicFee feed2 t2 s'.verificationFee
          = .ok f2 →
        v2 ≥ f2 →
        VeriAISolana.requestVerificationFor s' requester prompt2 model2 v2 t2
          bn2 feed2 tk2 = .error .RateLimitExceeded := by
  constructor
  · intro last now
    simp [VerificationLibrary.checkRateLimit, ge_iff_le]
  · intro s s' requester prompt1 model1 prompt2 model2 v1 v2 t1 t2 bn1 bn2
      feed1 feed2 tk1 tk2 rid f2 h1 ht hinput hfee hge
    obtain ⟨hp0, hr0, hq0, hp', hr', _, hlast, _, _⟩ := submitFor_ok_spec h1
    have hrl : VerificationLibrary.checkRateLimit
        (s'.lastRequestTime requester) t2 = false := by
      rw [hlast]
      simp only [VerificationLibrary.checkRateLimit, decide_eq_false_iff_not]
      omega
    have hnlt : ¬ v2 < f2 := by omega
    simp [VeriAISolana.requestVerificationFor,
      VeriAISolana.requestVerificationCore, hp', hp0, hr', hr0, hq0, hinput,
      hfee, hnlt, hrl]

/-- Witness for C6: after Alice's accepted submission at time 100, an
identical well-funded submission at time 130 fails `RateLimitExceeded`. -/
theorem C6_rate_limit_witness :
    VeriAISolana.requestVerificationFor sysA "alice" "p" "m" (10 ^ 15) 130 2
      none true = .error .RateLimitExceeded := by
  have h1 : VeriAISolana.requestVerificationFor sys0 "alice" "p" "m"
      (10 ^ 15) 100 1 none true = .ok (sysA, rid0) := by rfl
  have hfee : VeriAISolana.calculateDynamicFee none 130 sysA.verificationFee
      = .ok (10 ^ 15) := by rfl
  exact C6_rate_limit_window.2 sys0 sysA "alice" "p" "m" "p" "m" (10 ^ 15)
    (10 ^ 15) 100 130 1 2 none none true true rid0 (10 ^ 15) h1
    (by norm_num [VerificationLibrary.RATE_LIMIT_WINDOW]) (by rfl) hfee
    (by norm_num)

/-- C7 counterexample: certificate token 0 exists (minted at time 86500,
when `sysC`'s fulfillment ran) for the request created at time 100, and the
stored metadata timestamp is that creation time 100.  Queried at time
2592100 — still within the 30-day window of the issuance time
(2592100 − 86500 < 2592000) — the validity query nevertheless answers
`false`, because the code measures the window from the stored request
creation timestamp, which by then is 30 days old. -/
theorem C7_validity_window_counterexample :
    VeriAINFTSolana.tokenExists sysC.nft 0 = true
    ∧ (sysC.nft.tokenMetadata.lookup 0).map VerificationMetadata.timestamp
      = some 100
    ∧ VeriAINFTSolana.isVerificationValid sysC.nft 0 2592100 = .ok false
    ∧ 2592100 - 86500 < 2592000 := by
  refine ⟨by rfl, by rfl, by rfl, by norm_num⟩

/-- C7 amended: `isVerificationValid(tokenId)` answers true exactly when the
token exists, its metadata's `verified` flag is set, and strictly fewer than
30 days (2592000 s) have passed since the metadata timestamp — which is the
verification request's creation time carried into the certificate, not the
mint (issuance) time; for nonexistent tokens the answer is false. -/
theorem C7_validity_window_amended (nft : NFTState) (tokenId now : Nat) :
    VeriAINFTSolana.isVerificationValid nft tokenId now = .ok true ↔
      (VeriAINFTSolana.tokenExists nft tokenId = true
        ∧ ((nft.tokenMetadata.lookup tokenId).getD defaultMetadata).verified
          = true
        ∧ ((nft.tokenMetadata.lookup tokenId).getD defaultMetadata).timestamp
          ≤ now
        ∧ now -
          ((nft.tokenMetadata.lookup tokenId).getD defaultMetadata).timestamp
          < 2592000) := by
  by_cases hex : VeriAINFTSolana.tokenExists nft tokenId = true
  · by_cases hts :
        ((nft.tokenMetadata.lookup tokenId).getD defaultMetadata).timestamp
          > now
    · have hnle : ¬ ((nft.tokenMetadata.lookup
          tokenId).getD defaultMetadata).timestamp ≤ now := by omega
      simp [VeriAINFTSolana.isVerificationValid, hex, hts, hnle]
    · have hle : ((nft.tokenMetadata.lookup
          tokenId).getD defaultMetadata).timestamp ≤ now := by omega
      simp [VeriAINFTSolana.isVerificationValid, hex, hts, hle]
  · simp [VeriAINFTSolana.isVerificationValid, hex]

/-- A certificate record held only by the Ethereum-side service. -/
def nftd0 : RouterNFTData := ⟨"bob", "p", "o", "gpt-4", "v1", "t"⟩

/-- Router state whose Ethereum store holds token "12345" (a token id with
no chain marker) while the Solana store is empty; default chain Solana. -/
def router8 : RouterState := ⟨[], [("12345", nftd0)], .solana⟩

/-- C8 counterexample: token id "12345" matches no chain marker, so
inference is inconclusive in the claim's sense; the token exists on the
Ethereum side, yet the router's `getNFT` with the chain omitted returns
`none` (NotFound) — it resolves the id to the default chain (Solana) and
queries only that chain, never probing Ethereum.  The probe-each-chain
branch in the source is unreachable. -/
theorem C8_chain_inference_counterexample :
    MultichainContractService.detectChainFromTokenId router8.defaultChain
      "12345" = .solana
    ∧ MultichainContractService.chainGetNFT router8 .ethereum "12345"
      = some (nftd0, .ethereum)
    ∧ MultichainContractService.getNFT router8 "12345" none = none := by
  refine ⟨by rfl, by rfl, by rfl⟩

/-- C8 amended: with the chain selector omitted, the router infers the chain
from the token id's chain-specific marker; when no marker matches, the
detector returns the configured default chain and the router queries exactly
that one chain's service (returning NotFound if it lacks the token) — it
never probes the other chains. -/
theorem C8_chain_inference_amended (r : RouterState) (tokenId : String)
    (h1 : MultichainContractService.strStartsWith tokenId "sol_" = false)
    (h2 : MultichainContractService.strStartsWith tokenId "solana_" = false)
    (h3 : MultichainContractService.strStartsWith tokenId "eth_" = false)
    (h4 : MultichainContractService.strStartsWith tokenId "ethereum_"
      = false) :
    MultichainContractService.detectChainFromTokenId r.defaultChain tokenId
      = r.defaultChain
    ∧ MultichainContractService.getNFT r tokenId none
      = MultichainContractService.chainGetNFT r r.defaultChain tokenId := by
  have hdet : MultichainContractService.detectChainFromTokenId r.defaultChain
      tokenId = r.defaultChain := by
    simp [MultichainContractService.detectChainFromTokenId, h1, h2, h3, h4]
  refine ⟨hdet, ?_⟩
  cases hc : r.defaultChain <;>
    simp_all [MultichainContractService.getNFT]

/-- Witness for C8 amended: for the markerless token id "12345" the router
queries exactly the default chain's store. -/
theorem C8_chain_inference_witness :
    MultichainContractService.getNFT router8 "12345" none
      = MultichainContractService.chainGetNFT router8 router8.defaultChain
        "12345" :=
  (C8_chain_inference_amended router8 "12345" (by decide) (by decide)
    (by decide) (by decide)).2

theorem mint_ok_of (nft : NFTState) (recipient : String)
    (md : VerificationMetadata) (hrec : recipient ≠ "")
    (hp : 0 < md.prompt.utf8ByteSize) (hm : 0 < md.model.utf8ByteSize)
    (ht : 0 < md.timestamp) (hrid : md.requestId ≠ B32.zero)
    (hex : VeriAINFTSolana.tokenExists nft nft.tokenIdCounter = false) :
    (VeriAINFTSolana.mintVerificationNFT nft true recipient md).isOk
      = true := by
  simp [VeriAINFTSolana.mintVerificationNFT, VeriAINFTSolana.validateMetadata,
    hrec, hp, hm, ht, hrid, hex, Except.isOk, Except.toBool]

/-- C9: while the contract is paused, both `requestVerification` entry
points (caller-pays and backend-pays-on-behalf) fail `ContractPaused` — the
call reverting, no registry state changes — whereas `fulfillVerification`
and `markVerificationFailed` carry no pause guard: on a `Pending` request
meeting their other preconditions they succeed even with the pause flag
set. -/
theorem C9_pause_gating (s : SysState) (hpaused : s.paused = true) :
    (∀ prompt model value now blockNumber priceFeed transferOk,
      VeriAISolana.requestVerificationSelf s prompt model value now
        blockNumber priceFeed transferOk = .error .ContractPaused)
    ∧ (∀ requester prompt model value now blockNumber priceFeed transferOk,
      VeriAISolana.requestVerificationFor s requester prompt model value now
        blockNumber priceFeed transferOk = .error .ContractPaused)
    ∧ (∀ requestId request output attestationId proof now,
        s.requests.lookup requestId = some request →
        request.requester ≠ "" →
        request.status = .Pending →
        SolanaOracleRelayer.verifyAttestation s.relayer attestationId
          = true →
        request.attestationId = attestationId →
        VerificationLibrary.isRequestExpired request.timestamp now = false →
        s.nftMinterRole = true →
        0 < request.prompt.utf8ByteSize →
        0 < request.model.utf8ByteSize →
        0 < request.timestamp →
        requestId ≠ B32.zero →
        VeriAINFTSolana.tokenExists s.nft s.nft.tokenIdCounter = false →
        (VeriAISolana.fulfillVerification s true requestId output
          attestationId proof now).isOk = true)
    ∧ (∀ requestId request reason,
        s.requests.lookup requestId = some request →
        request.requester ≠ "" →
        request.status = .Pending →
        (VeriAISolana.markVerificationFailed s true requestId reason).isOk
          = true) := by
  refine ⟨?_, ?_, ?_, ?_⟩
  · intro prompt model value now blockNumber priceFeed transferOk
    simp [VeriAISolana.requestVerificationSelf, hpaused]
  · intro requester prompt model value now blockNumber priceFeed transferOk
    simp [VeriAISolana.requestVerificationFor, hpaused]
  · intro requestId request output attestationId proof now hlook hreq hstat
      hval hmatch hexp hminter hp hm ht hrid hex
    have hmd := mint_ok_of s.nft request.requester
      ⟨request.prompt, request.model,
        VerificationLibrary.calculateOutputHash output, request.timestamp,
        B32.proofHash proof, true, s.admin, requestId⟩
      hreq hp hm ht hrid hex
    cases hmint : VeriAINFTSolana.mintVerificationNFT s.nft true
        request.requester
        ⟨request.prompt, request.model,
          VerificationLibrary.calculateOutputHash output, request.timestamp,
          B32.proofHash proof, true, s.admin, requestId⟩ with
    | error e => rw [hmint] at hmd; simp [Except.isOk, Except.toBool] at hmd
    | ok p =>
      simp [VeriAISolana.fulfillVerification, hlook, hreq, hstat, hval,
        hmatch, hexp, hminter, hmint, Except.isOk, Except.toBool]
  · intro requestId request reason hlook hreq hstat
    simp [VeriAISolana.markVerificationFailed, hlook, hreq, hstat,
      Except.isOk, Except.toBool]

/-- Witness for C9: on the paused state both submission entry points fail
`ContractPaused`, while fulfilling and failing the pending request still
succeed. -/
theorem C9_pause_gating_witness :
    VeriAISolana.requestVerificationSelf sysP "p" "m" (10 ^ 15) 200 2 none
      true = .error .ContractPaused
    ∧ VeriAISolana.requestVerificationFor sysP "alice" "p" "m" (10 ^ 15) 200
      2 none true = .error .ContractPaused
    ∧ (VeriAISolana.fulfillVerification sysP true rid0 "out" att0 [3]
        200).isOk = true
    ∧ (VeriAISolana.markVerificationFailed sysP true rid0 "oops").isOk
      = true := by
  obtain ⟨h1, h2, h3, h4⟩ := C9_pause_gating sysP rfl
  exact ⟨h1 "p" "m" (10 ^ 15) 200 2 none true,
    h2 "alice" "p" "m" (10 ^ 15) 200 2 none true,
    h3 rid0 reqA "out" att0 [3] 200 (by rfl) (by decide) rfl (by rfl) rfl
      (by decide) rfl (by decide) (by decide) (by decide) (by decide)
      (by rfl),
    h4 rid0 reqA "oops" (by rfl) (by decide) rfl⟩

/-- C10: `markVerificationFailed` performs no expiry check — its only
failure modes (under the oracle role) are an unknown request id and a
non-`Pending` status, and on any stored `Pending` request it succeeds and
sets `Failed` even at a time past the 24-hour expiry window (the entry
point does not even take the current time as an input). -/
theorem C10_mark_failed_no_expiry (s : SysState) (requestId : B32)
    (reason : String) :
    (s.requests.lookup requestId = none →
      VeriAISolana.markVerificationFailed s true requestId reason
        = .error .RequestNotFound)
    ∧ (∀ request, s.requests.lookup requestId = some request →
        request.requester ≠ "" → request.status ≠ .Pending →
        VeriAISolana.markVerificationFailed s true requestId reason
          = .error .AlreadyProcessed)
    ∧ (∀ request, s.requests.lookup requestId = some request →
        request.requester ≠ "" → request.status = .Pending →
        ∀ now, VerificationLibrary.isRequestExpired request.timestamp now
          = true →
        ∃ s', VeriAISolana.markVerificationFailed s true requestId reason
            = .ok s'
          ∧ requestStatus s' requestId = some .Failed) := by
  refine ⟨?_, ?_, ?_⟩
  · intro hlook
    simp [VeriAISolana.markVerificationFailed, hlook]
  · intro request hlook hreq hstat
    simp [VeriAISolana.markVerificationFailed, hlook, hreq, hstat]
  · intro request hlook hreq hstat now hexp
    have hms : VeriAISolana.markVerificationFailed s true requestId reason
        = .ok { s with
            requests := (mset requestId { request with status := .Failed }
              s.requests)
            totalFailed := s.totalFailed + 1 } := by
      simp [VeriAISolana.markVerificationFailed, hlook, hreq, hstat]
    exact ⟨_, hms, by simp [requestStatus, lookup_mset_self]⟩

/-- Witness for C10: at time 1000000 Alice's request (created at time 100)
is long expired, yet `markVerificationFailed` succeeds and sets `Failed`. -/
theorem C10_mark_failed_no_expiry_witness :
    VerificationLibrary.isRequestExpired 100 1000000 = true
    ∧ ∃ s', VeriAISolana.markVerificationFailed sysA true rid0 "timeout"
        = .ok s' ∧ requestStatus s' rid0 = some .Failed := by
  refine ⟨by decide, ?_⟩
  exact (C10_mark_failed_no_expiry sysA rid0 "timeout").2.2 reqA (by rfl)
    (by decide) rfl 1000000 (by decide)
